import Mathlib

/-! Shallow embedding of the `necessary-metrics` procedural macro crate:
the attribute validator and declaration/module parsers of
`src/parsing.rs` and the code generator of `src/lib.rs`.

Rust identifiers and spans are modelled as `String`s; `syn` data that the
crate inspects (attribute meta forms, literal expressions, type paths) is
modelled structurally; everything the crate passes through verbatim
(visibility, parameter types, non-literal expressions) is kept opaque.
Fallible Rust functions returning `syn::Result` become `Except String`,
carrying the error message of the `syn::Error` that the source constructs.
-/

namespace NecessaryMetrics

/-- A `syn` literal, as far as the crate inspects it: a string literal
(`Lit::Str`, whose `value()` the crate reads) or any other literal. -/
inductive Lit where
  | str (value : String)
  | other (text : String)
deriving DecidableEq, Repr

/-- A `syn::Expr`, as far as the crate inspects it: a literal expression
(`Expr::Lit`) or any other expression, kept opaque as source text. -/
inductive Expr where
  | lit (l : Lit)
  | other (text : String)
deriving DecidableEq, Repr

/-- The meta form of a `syn::Attribute`: `#[path]`, `#[path(...)]`, or the
name-value form `#[path = expr]` (`Meta::NameValue`). -/
inductive Meta where
  | path
  | list (tokens : String)
  | nameValue (value : Expr)
deriving DecidableEq, Repr

/-- A `syn::Attribute`: a path (list of segment identifiers; `is_ident s`
holds exactly when the path is the single bare segment `s`) and a meta form. -/
structure Attribute where
  path : List String
  meta : Meta
deriving DecidableEq, Repr

/-- A segment of a `syn::Path`, with its identifier and whether it carries
generic arguments (`PathSegment::arguments`). -/
structure PathSegment where
  ident : String
  hasArguments : Bool
deriving DecidableEq, Repr

/-- A `syn::Path`: optional leading `::` and a list of segments. -/
structure Path where
  leadingColon : Bool
  segments : List PathSegment
deriving DecidableEq, Repr

/-- `syn::Path::require_ident` (via `get_ident`): the single identifier of
the path, when the path has no leading colon, exactly one segment, and that
segment carries no generic arguments. -/
def Path.require_ident (p : Path) : Option String :=
  match p.leadingColon, p.segments with
  | false, [s] => if s.hasArguments then none else some s.ident
  | _, _ => none

/-- A `syn::Type`, as far as the crate inspects it: a path type
(`Type::Path`) or any other spelling (references, tuples, parenthesized
types, ...), kept opaque as source text. -/
inductive RsType where
  | path (p : Path)
  | other (text : String)
deriving DecidableEq, Repr

/-- `FnReturnTy` from `lib.rs`: the closed set of metric kinds. -/
inductive FnReturnTy where
  | Counter
  | Gauge
  | Histogram
deriving DecidableEq, Repr

/-- `FnAttrs` from `lib.rs`: validated attribute data of one declaration. -/
structure FnAttrs where
  cfg : List Attribute
  doc : String
  description : Option Expr
  unit : Option Expr
deriving DecidableEq, Repr

/-- `FnArg` from `lib.rs`: one parameter (identifier and opaque type). -/
structure FnArg where
  ident : String
  ty : RsType
deriving DecidableEq, Repr

/-- `ItemFn` from `lib.rs`: one parsed metric declaration. Visibility is
opaque pass-through text; span-only token fields are dropped. -/
structure ItemFn where
  attrs : FnAttrs
  vis : String
  ident : String
  args : List FnArg
  fn_return_ty : FnReturnTy
deriving DecidableEq, Repr

/-- `Mod` from `lib.rs`: the parsed annotated module. -/
structure Mod where
  attrs : List Attribute
  vis : String
  ident : String
  fns : List ItemFn
deriving DecidableEq, Repr

/-- `FN_ATTR_ERROR` from `parsing.rs`. -/
def FN_ATTR_ERROR : String :=
  "Only `#[cfg]` and `#[doc]` are allowed on functions"

/-- `METRIC_KIND_ERROR` from `parsing.rs`. -/
def METRIC_KIND_ERROR : String :=
  "Only `Counter`, `Gauge`, and `Histogram` (verbatim, no qualified paths) are allowed as return types on functions"

/-- Error message raised in `parse_attrs` on a second `description`. -/
def DUP_DESCRIPTION_ERROR : String :=
  "Metric description has already been set"

/-- Error message raised in `parse_attrs` on a second `unit`. -/
def DUP_UNIT_ERROR : String :=
  "Metric unit has already been set"

/-- Error message raised by the post-scan check in `parse_attrs`. -/
def UNIT_WITHOUT_DESCRIPTION_ERROR : String :=
  "Cannot set metric unit without setting metric description"

/-- Message of the `syn::Error` produced by `Meta::require_name_value`
when the attribute is not in name-value form (its exact text lives in
`syn`, not in this crate; no claim depends on it). -/
def REQUIRE_NAME_VALUE_ERROR : String :=
  "expected a value for this attribute"

/-- `read_attr_meta_name_value` from `parsing.rs`: requires the attribute
to be in name-value form, then returns its string-literal value, or `none`
when the value is not a string literal. -/
def read_attr_meta_name_value (attr : Attribute) : Except String (Option String) :=
  match attr.meta with
  | Meta.nameValue (Expr.lit (Lit.str s)) => Except.ok (some s)
  | Meta.nameValue _ => Except.ok none
  | _ => Except.error REQUIRE_NAME_VALUE_ERROR

/-- `read_attr_expr` from `parsing.rs`: requires the attribute to be in
name-value form and returns the expression after the equals sign. -/
def read_attr_expr (attr : Attribute) : Except String Expr :=
  match attr.meta with
  | Meta.nameValue v => Except.ok v
  | _ => Except.error REQUIRE_NAME_VALUE_ERROR

/-- The mutable state of the attribute scan loop in `parse_attrs`:
`cfg`, `doc`, `description`, `unit`, and `unit_attr` (the `unit` attribute
retained for the span of the post-scan error). -/
structure AttrState where
  cfg : List Attribute
  doc : String
  description : Option Expr
  unit : Option Expr
  unit_attr : Option Attribute
deriving DecidableEq, Repr

/-- The initial scan state of `parse_attrs`. -/
def initState : AttrState :=
  { cfg := [], doc := "", description := none, unit := none, unit_attr := none }

/-- One iteration of the `for attr in attrs` loop of `parse_attrs`. -/
def parse_attrs_step (st : AttrState) (attr : Attribute) : Except String AttrState :=
  if attr.path = ["cfg"] then
    Except.ok { st with cfg := st.cfg ++ [attr] }
  else if attr.path = ["doc"] then
    match read_attr_meta_name_value attr with
    | Except.error e => Except.error e
    | Except.ok (some s) => Except.ok { st with doc := st.doc ++ s }
    | Except.ok none => Except.ok st
  else if attr.path = ["description"] then
    if st.description.isSome then
      Except.error DUP_DESCRIPTION_ERROR
    else
      Except.ok { st with description := (read_attr_expr attr).toOption }
  else if attr.path = ["unit"] then
    if st.unit.isSome then
      Except.error DUP_UNIT_ERROR
    else
      Except.ok { st with unit_attr := some attr, unit := (read_attr_expr attr).toOption }
  else
    Except.error FN_ATTR_ERROR

/-- The left-to-right attribute scan loop of `parse_attrs`. -/
def scan_attrs : AttrState → List Attribute → Except String AttrState
  | st, [] => Except.ok st
  | st, attr :: rest =>
    match parse_attrs_step st attr with
    | Except.error e => Except.error e
    | Except.ok st' => scan_attrs st' rest

/-- `parse_attrs` from `parsing.rs`: scan all attributes left-to-right,
then apply the post-scan check that `unit` requires `description`. -/
def parse_attrs (attrs : List Attribute) : Except String FnAttrs :=
  match scan_attrs initState attrs with
  | Except.error e => Except.error e
  | Except.ok st =>
    if st.unit.isSome && st.description.isNone then
      Except.error UNIT_WITHOUT_DESCRIPTION_ERROR
    else
      Except.ok { cfg := st.cfg, doc := st.doc, description := st.description, unit := st.unit }

/-- `impl Parse for FnReturnTy` from `parsing.rs`: the return type must be
a path type that is a single bare identifier naming one of the three kinds. -/
def FnReturnTy.parse (ty : RsType) : Except String FnReturnTy :=
  match ty with
  | RsType.path p =>
    match p.require_ident with
    | none => Except.error METRIC_KIND_ERROR
    | some id =>
      if id = "Counter" then Except.ok FnReturnTy.Counter
      else if id = "Gauge" then Except.ok FnReturnTy.Gauge
      else if id = "Histogram" then Except.ok FnReturnTy.Histogram
      else Except.error METRIC_KIND_ERROR
  | RsType.other _ => Except.error METRIC_KIND_ERROR

/-- The raw surface of one declaration as `impl Parse for ItemFn` consumes
it from the token cursor: raw outer attributes, visibility, name, the
comma-separated `ident: type` parameter list, and the raw return type
before the terminating semicolon. -/
structure FnSurface where
  attrs : List Attribute
  vis : String
  ident : String
  args : List (String × RsType)
  returnTy : RsType
deriving DecidableEq, Repr

/-- `impl Parse for ItemFn` from `parsing.rs`: validate the attributes via
`parse_attrs` and the return kind via `FnReturnTy::parse`; everything else
is carried through. -/
def ItemFn.parse (s : FnSurface) : Except String ItemFn :=
  match parse_attrs s.attrs with
  | Except.error e => Except.error e
  | Except.ok attrs =>
    match FnReturnTy.parse s.returnTy with
    | Except.error e => Except.error e
    | Except.ok ty =>
      Except.ok
        { attrs := attrs
          vis := s.vis
          ident := s.ident
          args := s.args.map (fun a => { ident := a.1, ty := a.2 })
          fn_return_ty := ty }

/-- The raw surface of one annotated module as `impl Parse for Mod`
consumes it: outer attributes, visibility, name, and the brace-delimited
body split into declaration-shaped units. -/
structure ModSurface where
  attrs : List Attribute
  vis : String
  ident : String
  body : List FnSurface
deriving DecidableEq, Repr

/-- `impl Parse for Mod` from `parsing.rs`: parse every declaration of the
body in order (`while !content.is_empty() { fns.push(content.parse()?); }`). -/
def Mod.parse (s : ModSurface) : Except String Mod :=
  match s.body.mapM ItemFn.parse with
  | Except.error e => Except.error e
  | Except.ok fns =>
    Except.ok { attrs := s.attrs, vis := s.vis, ident := s.ident, fns := fns }

/-- `impl ToTokens for FnReturnTy` from `lib.rs`: the rendered return type
of an accessor, `::metrics::Counter` / `::metrics::Gauge` /
`::metrics::Histogram`. -/
def FnReturnTy.toType : FnReturnTy → RsType
  | FnReturnTy.Counter =>
    RsType.path { leadingColon := true, segments := [⟨"metrics", false⟩, ⟨"Counter", false⟩] }
  | FnReturnTy.Gauge =>
    RsType.path { leadingColon := true, segments := [⟨"metrics", false⟩, ⟨"Gauge", false⟩] }
  | FnReturnTy.Histogram =>
    RsType.path { leadingColon := true, segments := [⟨"metrics", false⟩, ⟨"Histogram", false⟩] }

/-- The name of the recording macro invoked for a kind
(`::metrics::counter!` / `gauge!` / `histogram!`). -/
def recordMacroName : FnReturnTy → String
  | FnReturnTy.Counter => "counter"
  | FnReturnTy.Gauge => "gauge"
  | FnReturnTy.Histogram => "histogram"

/-- The name of the describe macro invoked for a kind
(`::metrics::describe_counter!` / `describe_gauge!` / `describe_histogram!`). -/
def describeMacroName : FnReturnTy → String
  | FnReturnTy.Counter => "describe_counter"
  | FnReturnTy.Gauge => "describe_gauge"
  | FnReturnTy.Histogram => "describe_histogram"

/-- An argument appearing in a generated `::metrics::...!` macro
invocation: the metric-name string literal, the `&labels` reference, or a
spliced `description`/`unit` expression. -/
inductive GenExpr where
  | strLit (s : String)
  | labelsRef
  | spliced (e : Expr)
deriving DecidableEq, Repr

/-- A generated `::metrics::NAME!(args...)` invocation. `trailingComma`
records whether the emitted token stream ends the argument list with a
comma (the zero-label record call is emitted as `counter!("name",)`). -/
structure MacroCall where
  name : String
  args : List GenExpr
  trailingComma : Bool
deriving DecidableEq, Repr

/-- One generated function (accessor or description function), as
structured by the `quote!` templates of `expand_metric_fn`:
`#[doc = doc]`, the pass-through `cfg` attributes, visibility, name,
parameter list, optional rendered return type, the optional
`let labels = [(key, value.to_string()), ...];` binding (each pair keyed by
a parameter's textual name with that parameter's value rendered via
`.to_string()`), and the single macro invocation of the body. -/
structure GenFn where
  doc : String
  cfg : List Attribute
  vis : String
  name : String
  params : List FnArg
  returnTy : Option RsType
  labels : Option (List (String × String))
  call : MacroCall
deriving DecidableEq, Repr

/-- The token stream returned by `expand_metric_fn` for one declaration:
the accessor function followed by the optional description function. -/
structure Expanded where
  accessor : GenFn
  describeFn : Option GenFn
deriving DecidableEq, Repr

/-- The token stream returned by `expand_from_parsed`: the module's
attributes, visibility and name reproduced around the concatenated
expansions of its declarations. -/
structure GenMod where
  attrs : List Attribute
  vis : String
  ident : String
  items : List Expanded
deriving DecidableEq, Repr

/-- `expand_metric_fn` from `lib.rs`. -/
def expand_metric_fn (fn_ : ItemFn) : Expanded :=
  let label_cnt := fn_.args.length
  let label_emission := fn_.args.map (fun arg => (arg.ident, arg.ident))
  let metric_name := fn_.ident
  let labels_ref : List GenExpr := if label_cnt > 0 then [GenExpr.labelsRef] else []
  let labels_binding : Option (List (String × String)) :=
    if label_cnt > 0 then some label_emission else none
  let metric_emission : MacroCall :=
    { name := recordMacroName fn_.fn_return_ty
      args := GenExpr.strLit metric_name :: labels_ref
      trailingComma := labels_ref.isEmpty }
  let accessor : GenFn :=
    { doc := fn_.attrs.doc
      cfg := fn_.attrs.cfg
      vis := fn_.vis
      name := metric_name
      params := fn_.args
      returnTy := some fn_.fn_return_ty.toType
      labels := labels_binding
      call := metric_emission }
  let description_fn : Option GenFn :=
    match fn_.attrs.description with
    | some description =>
      let fn_name := "describe_" ++ metric_name
      let doc := "Describes the metric `" ++ metric_name ++ "`."
      let description_stmt : MacroCall :=
        match fn_.attrs.unit with
        | some unit =>
          { name := describeMacroName fn_.fn_return_ty
            args := [GenExpr.strLit metric_name, GenExpr.spliced unit, GenExpr.spliced description]
            trailingComma := false }
        | none =>
          { name := describeMacroName fn_.fn_return_ty
            args := [GenExpr.strLit metric_name, GenExpr.spliced description]
            trailingComma := false }
      some
        { doc := doc
          cfg := fn_.attrs.cfg
          vis := fn_.vis
          name := fn_name
          params := []
          returnTy := none
          labels := none
          call := description_stmt }
    | none => none
  { accessor := accessor, describeFn := description_fn }

/-- `expand_from_parsed` from `lib.rs`. -/
def expand_from_parsed (mod_ : Mod) : GenMod :=
  { attrs := mod_.attrs
    vis := mod_.vis
    ident := mod_.ident
    items := mod_.fns.map expand_metric_fn }

/-- Reading generated output back as a declaration-block surface. A
generated function carries a brace-delimited body instead of the
`-> Kind ;` terminator that `impl Parse for ItemFn` demands, so a module
whose body contains any generated function does not re-parse as a
declaration block; only the empty module's output is again a valid input,
with the same attributes, visibility, name, and an empty body. -/
def GenMod.reparseSurface (g : GenMod) : Option ModSurface :=
  match g.items with
  | [] => some { attrs := g.attrs, vis := g.vis, ident := g.ident, body := [] }
  | _ => none

/-- Spec-side description of the documentation text (for comparison with
`parse_attrs`): the string values of the declaration's doc-comment
fragments, i.e. of its `#[doc = "..."]` attributes, in source order. -/
def docFragmentStrings (attrs : List Attribute) : List String :=
  attrs.filterMap (fun a =>
    if a.path = ["doc"] then
      match a.meta with
      | Meta.nameValue (Expr.lit (Lit.str s)) => some s
      | _ => none
    else none)

/-- Concatenation of a list of strings with no separators. -/
def concatAll : List String → String
  | [] => ""
  | s :: rest => s ++ concatAll rest

/-- The bare single-identifier path type with the given name, e.g. the
return-type spelling `Counter`. -/
def bareKindTy (s : String) : RsType :=
  RsType.path { leadingColon := false, segments := [{ ident := s, hasArguments := false }] }

/-- Sample inputs used by the witness theorems. -/
def sampleDescExpr : Expr := Expr.lit (Lit.str "metric description")

/-- Sample unit expression. -/
def sampleUnitExpr : Expr := Expr.other "metrics::Unit::Count"

/-- Sample well-formed `#[description = ...]` attribute. -/
def sampleDescAttr : Attribute := { path := ["description"], meta := Meta.nameValue sampleDescExpr }

/-- Sample well-formed `#[unit = ...]` attribute. -/
def sampleUnitAttr : Attribute := { path := ["unit"], meta := Meta.nameValue sampleUnitExpr }

/-- Sample malformed `#[unit(Seconds)]` attribute (list form, not
name-value form). -/
def malformedUnitAttr : Attribute := { path := ["unit"], meta := Meta.list "Seconds" }

/-- Sample malformed bare `#[description]` attribute (path form, not
name-value form). -/
def malformedDescAttr : Attribute := { path := ["description"], meta := Meta.path }

/-- Sample declaration `pub fn counter(label_key: &str) -> Counter;`. -/
def sampleLabeledFn : ItemFn :=
  { attrs := { cfg := [], doc := "", description := none, unit := none }
    vis := "pub"
    ident := "counter"
    args := [{ ident := "label_key", ty := RsType.other "&str" }]
    fn_return_ty := FnReturnTy.Counter }

/-- Sample declaration `pub fn counter() -> Counter;`. -/
def sampleNoArgFn : ItemFn :=
  { attrs := { cfg := [], doc := "", description := none, unit := none }
    vis := "pub"
    ident := "counter"
    args := []
    fn_return_ty := FnReturnTy.Counter }

/-- Sample declaration with both `description` and `unit` set:
`#[description = "metric description"] #[unit = metrics::Unit::Count]
pub fn histogram() -> Histogram;`. -/
def sampleDescUnitFn : ItemFn :=
  { attrs := { cfg := [], doc := "", description := some sampleDescExpr, unit := some sampleUnitExpr }
    vis := "pub"
    ident := "histogram"
    args := []
    fn_return_ty := FnReturnTy.Histogram }

/-- Sample qualified return-type spelling `metrics::Counter`, whose
terminal segment matches an allowed kind name. -/
def sampleQualifiedTy : RsType :=
  RsType.path { leadingColon := false
                segments := [{ ident := "metrics", hasArguments := false },
                             { ident := "Counter", hasArguments := false }] }

/-- Sample unrecognized attribute `#[serde]`. -/
def sampleUnknownAttr : Attribute := { path := ["serde"], meta := Meta.path }

/-- Sample doc-comment fragment `/// Rust docs` (i.e. `#[doc = " Rust docs"]`). -/
def sampleDocAttr1 : Attribute :=
  { path := ["doc"], meta := Meta.nameValue (Expr.lit (Lit.str " Rust docs")) }

/-- Sample doc-comment fragment `/// More docs` (i.e. `#[doc = " More docs"]`). -/
def sampleDocAttr2 : Attribute :=
  { path := ["doc"], meta := Meta.nameValue (Expr.lit (Lit.str " More docs")) }

/-- Sample empty module surface `#[metrics] mod empty {}`. -/
def sampleEmptyModSurface : ModSurface :=
  { attrs := [{ path := ["metrics"], meta := Meta.path }]
    vis := "pub"
    ident := "empty"
    body := [] }

/-! Helper lemmas about the attribute scan loop. -/

theorem scan_attrs_append (l₁ l₂ : List Attribute) : ∀ st : AttrState,
    scan_attrs st (l₁ ++ l₂) =
      match scan_attrs st l₁ with
      | Except.error e => Except.error e
      | Except.ok st' => scan_attrs st' l₂ := by
  induction l₁ with
  | nil => intro st; simp [scan_attrs]
  | cons a rest ih =>
    intro st
    simp only [List.cons_append, scan_attrs]
    cases parse_attrs_step st a with
    | error e => rfl
    | ok st' => exact ih st'

theorem parse_attrs_step_ok_description (st st' : AttrState) (a : Attribute)
    (h : parse_attrs_step st a = Except.ok st') :
    st'.description = st.description ∨ st.description = none := by
  unfold parse_attrs_step at h
  split_ifs at h with h1 h2 h3 hds h4 hus
  · cases h; left; rfl
  · revert h
    cases read_attr_meta_name_value a with
    | error e => intro h; cases h
    | ok o =>
      cases o with
      | none => intro h; cases h; left; rfl
      | some s => intro h; cases h; left; rfl
  · right
    cases hd : st.description with
    | none => rfl
    | some d => rw [hd] at hds; simp at hds
  · cases h; left; rfl

theorem parse_attrs_step_ok_unit (st st' : AttrState) (a : Attribute)
    (h : parse_attrs_step st a = Except.ok st') :
    st'.unit = st.unit ∨ st.unit = none := by
  unfold parse_attrs_step at h
  split_ifs at h with h1 h2 h3 hds h4 hus
  · cases h; left; rfl
  · revert h
    cases read_attr_meta_name_value a with
    | error e => intro h; cases h
    | ok o =>
      cases o with
      | none => intro h; cases h; left; rfl
      | some s => intro h; cases h; left; rfl
  · cases h; left; rfl
  · right
    cases hu : st.unit with
    | none => rfl
    | some u => rw [hu] at hus; simp at hus

theorem scan_attrs_description_isSome (l : List Attribute) :
    ∀ st st' : AttrState, scan_attrs st l = Except.ok st' →
      st.description.isSome = true → st'.description.isSome = true := by
  induction l with
  | nil => intro st st' h hs; cases h; exact hs
  | cons a rest ih =>
    intro st st' h hs
    simp only [scan_attrs] at h
    revert h
    cases hstep : parse_attrs_step st a with
    | error e => intro h; cases h
    | ok st₁ =>
      intro h
      refine ih st₁ st' h ?_
      rcases parse_attrs_step_ok_description st st₁ a hstep with heq | hnone
      · rw [heq]; exact hs
      · rw [hnone] at hs; cases hs

theorem scan_attrs_unit_isSome (l : List Attribute) :
    ∀ st st' : AttrState, scan_attrs st l = Except.ok st' →
      st.unit.isSome = true → st'.unit.isSome = true := by
  induction l with
  | nil => intro st st' h hs; cases h; exact hs
  | cons a rest ih =>
    intro st st' h hs
    simp only [scan_attrs] at h
    revert h
    cases hstep : parse_attrs_step st a with
    | error e => intro h; cases h
    | ok st₁ =>
      intro h
      refine ih st₁ st' h ?_
      rcases parse_attrs_step_ok_unit st st₁ a hstep with heq | hnone
      · rw [heq]; exact hs
      · rw [hnone] at hs; cases hs

theorem parse_attrs_step_description_set (st : AttrState) (a : Attribute) (v : Expr)
    (hp : a.path = ["description"]) (hm : a.meta = Meta.nameValue v)
    (hd : st.description = none) :
    parse_attrs_step st a = Except.ok { st with description := some v } := by
  unfold parse_attrs_step read_attr_expr
  rw [hp, hm, hd]
  simp [Except.toOption]

theorem parse_attrs_step_unit_set (st : AttrState) (a : Attribute) (v : Expr)
    (hp : a.path = ["unit"]) (hm : a.meta = Meta.nameValue v)
    (hu : st.unit = none) :
    parse_attrs_step st a = Except.ok { st with unit_attr := some a, unit := some v } := by
  unfold parse_attrs_step read_attr_expr
  rw [hp, hm, hu]
  simp [Except.toOption]

theorem parse_attrs_step_description_dup (st : AttrState) (a : Attribute)
    (hp : a.path = ["description"]) (hd : st.description.isSome = true) :
    parse_attrs_step st a = Except.error DUP_DESCRIPTION_ERROR := by
  unfold parse_attrs_step
  rw [hp, hd]
  simp

theorem parse_attrs_step_unit_dup (st : AttrState) (a : Attribute)
    (hp : a.path = ["unit"]) (hu : st.unit.isSome = true) :
    parse_attrs_step st a = Except.error DUP_UNIT_ERROR := by
  unfold parse_attrs_step
  rw [hp, hu]
  simp

theorem parse_attrs_step_unrecognized (st : AttrState) (a : Attribute)
    (h1 : a.path ≠ ["cfg"]) (h2 : a.path ≠ ["doc"])
    (h3 : a.path ≠ ["description"]) (h4 : a.path ≠ ["unit"]) :
    parse_attrs_step st a = Except.error FN_ATTR_ERROR := by
  unfold parse_attrs_step
  rw [if_neg h1, if_neg h2, if_neg h3, if_neg h4]

theorem concatAll_append (l₁ l₂ : List String) :
    concatAll (l₁ ++ l₂) = concatAll l₁ ++ concatAll l₂ := by
  induction l₁ with
  | nil => simp [concatAll, String.empty_append]
  | cons s rest ih => simp [concatAll, ih, String.append_assoc]

theorem docFragmentStrings_cons (a : Attribute) (rest : List Attribute) :
    docFragmentStrings (a :: rest) = docFragmentStrings [a] ++ docFragmentStrings rest := by
  unfold docFragmentStrings
  rw [List.filterMap_cons, List.filterMap_cons]
  cases hfa : (if a.path = ["doc"] then
      match a.meta with
      | Meta.nameValue (Expr.lit (Lit.str s)) => some s
      | _ => none
    else none) with
  | none => simp
  | some s => simp

theorem parse_attrs_step_ok_doc (st st₁ : AttrState) (a : Attribute)
    (h : parse_attrs_step st a = Except.ok st₁) :
    st₁.doc = st.doc ++ concatAll (docFragmentStrings [a]) := by
  unfold parse_attrs_step at h
  split_ifs at h with h1 h2 h3 hds h4 hus
  · cases h
    have hfs : docFragmentStrings [a] = [] := by
      simp [docFragmentStrings, h1]
    rw [hfs]
    simp [concatAll, String.append_empty]
  · revert h
    cases hm : a.meta with
    | path =>
      intro h
      have hr : read_attr_meta_name_value a = Except.error REQUIRE_NAME_VALUE_ERROR := by
        unfold read_attr_meta_name_value; rw [hm]
      rw [hr] at h; cases h
    | list t =>
      intro h
      have hr : read_attr_meta_name_value a = Except.error REQUIRE_NAME_VALUE_ERROR := by
        unfold read_attr_meta_name_value; rw [hm]
      rw [hr] at h; cases h
    | nameValue v =>
      cases v with
      | lit l =>
        cases l with
        | str s =>
          intro h
          have hr : read_attr_meta_name_value a = Except.ok (some s) := by
            unfold read_attr_meta_name_value; rw [hm]
          rw [hr] at h; cases h
          have hfs : docFragmentStrings [a] = [s] := by
            simp [docFragmentStrings, h2, hm]
          rw [hfs]
          simp [concatAll, String.append_empty]
        | other t =>
          intro h
          have hr : read_attr_meta_name_value a = Except.ok none := by
            unfold read_attr_meta_name_value; rw [hm]
          rw [hr] at h; cases h
          have hfs : docFragmentStrings [a] = [] := by
            simp [docFragmentStrings, h2, hm]
          rw [hfs]
          simp [concatAll, String.append_empty]
      | other t =>
        intro h
        have hr : read_attr_meta_name_value a = Except.ok none := by
          unfold read_attr_meta_name_value; rw [hm]
        rw [hr] at h; cases h
        have hfs : docFragmentStrings [a] = [] := by
          simp [docFragmentStrings, h2, hm]
        rw [hfs]
        simp [concatAll, String.append_empty]
  · cases h
    have hfs : docFragmentStrings [a] = [] := by
      simp [docFragmentStrings, h3]
    rw [hfs]
    simp [concatAll, String.append_empty]
  · cases h
    have hfs : docFragmentStrings [a] = [] := by
      simp [docFragmentStrings, h4]
    rw [hfs]
    simp [concatAll, String.append_empty]

theorem scan_attrs_doc (l : List Attribute) : ∀ st st' : AttrState,
    scan_attrs st l = Except.ok st' →
      st'.doc = st.doc ++ concatAll (docFragmentStrings l) := by
  induction l with
  | nil =>
    intro st st' h
    cases h
    simp [docFragmentStrings, concatAll, String.append_empty]
  | cons a rest ih =>
    intro st st' h
    simp only [scan_attrs] at h
    revert h
    cases hstep : parse_attrs_step st a with
    | error e => intro h; cases h
    | ok st₁ =>
      intro h
      have hrest := ih st₁ st' h
      have hhead := parse_attrs_step_ok_doc st st₁ a hstep
      rw [docFragmentStrings_cons, concatAll_append, hrest, hhead, String.append_assoc]


/-! Claim theorems. -/

/-- Claim C1: for every declaration with N >= 1 parameters, the generated
accessor binds a label collection with exactly N entries, in declared
parameter order, each keyed by the parameter's textual name with the
parameter value converted to display text (`.to_string()`), and the record
invocation passes the metric-name literal and a reference to that
collection. -/
theorem claim_C1 (f : ItemFn) (h : 1 ≤ f.args.length) :
    (expand_metric_fn f).accessor.labels =
      some (f.args.map (fun a => (a.ident, a.ident))) ∧
    (f.args.map (fun a => (a.ident, a.ident))).length = f.args.length ∧
    (∀ i, ∀ hi : i < f.args.length,
      (f.args.map (fun a => (a.ident, a.ident))).get ⟨i, by simpa using hi⟩ =
        ((f.args.get ⟨i, hi⟩).ident, (f.args.get ⟨i, hi⟩).ident)) ∧
    (expand_metric_fn f).accessor.call.args =
      [GenExpr.strLit f.ident, GenExpr.labelsRef] := by
  have hpos : 0 < f.args.length := h
  refine ⟨?_, ?_, ?_, ?_⟩
  · simp [expand_metric_fn, hpos]
  · simp
  · intro i hi
    simp
  · simp [expand_metric_fn, hpos]

/-- Witness for C1 at the declaration `pub fn counter(label_key: &str) -> Counter;`. -/
theorem claim_C1_witness :
    (expand_metric_fn sampleLabeledFn).accessor.labels = some [("label_key", "label_key")] ∧
    (expand_metric_fn sampleLabeledFn).accessor.call.args =
      [GenExpr.strLit "counter", GenExpr.labelsRef] :=
  ⟨(claim_C1 sampleLabeledFn (by decide)).1, (claim_C1 sampleLabeledFn (by decide)).2.2.2⟩

/-- Claim C2: for every declaration with an empty parameter list, the
generated accessor binds no label collection and the record invocation
receives only the metric-name literal as argument (with a trailing comma in
the emitted tokens), a call shape distinct from the labelled one. -/
theorem claim_C2 (f : ItemFn) (h : f.args = []) :
    (expand_metric_fn f).accessor.labels = none ∧
    (expand_metric_fn f).accessor.call.args = [GenExpr.strLit f.ident] ∧
    (expand_metric_fn f).accessor.call.trailingComma = true ∧
    (expand_metric_fn f).accessor.call.name = recordMacroName f.fn_return_ty ∧
    (expand_metric_fn f).accessor.call.args ≠ [GenExpr.strLit f.ident, GenExpr.labelsRef] := by
  refine ⟨?_, ?_, ?_, ?_, ?_⟩ <;> simp [expand_metric_fn, h]

/-- Witness for C2 at the declaration `pub fn counter() -> Counter;`. -/
theorem claim_C2_witness :
    (expand_metric_fn sampleNoArgFn).accessor.labels = none ∧
    (expand_metric_fn sampleNoArgFn).accessor.call.args = [GenExpr.strLit "counter"] ∧
    (expand_metric_fn sampleNoArgFn).accessor.call.trailingComma = true ∧
    (expand_metric_fn sampleNoArgFn).accessor.call.name = recordMacroName FnReturnTy.Counter :=
  ⟨(claim_C2 sampleNoArgFn (by decide)).1, (claim_C2 sampleNoArgFn (by decide)).2.1,
   (claim_C2 sampleNoArgFn (by decide)).2.2.1, (claim_C2 sampleNoArgFn (by decide)).2.2.2.1⟩

/-- Claim C3: a description function is emitted exactly when `description`
is present; its describe invocation has exactly two arguments
(name, description) when `unit` is absent and exactly three arguments in
the order (name, unit, description) when `unit` is present. -/
theorem claim_C3 (f : ItemFn) :
    (f.attrs.description = none → (expand_metric_fn f).describeFn = none) ∧
    (∀ d, f.attrs.description = some d → f.attrs.unit = none →
      ∃ g, (expand_metric_fn f).describeFn = some g ∧
        g.call.name = describeMacroName f.fn_return_ty ∧
        g.call.args = [GenExpr.strLit f.ident, GenExpr.spliced d] ∧
        g.call.args.length = 2) ∧
    (∀ d u, f.attrs.description = some d → f.attrs.unit = some u →
      ∃ g, (expand_metric_fn f).describeFn = some g ∧
        g.call.name = describeMacroName f.fn_return_ty ∧
        g.call.args = [GenExpr.strLit f.ident, GenExpr.spliced u, GenExpr.spliced d] ∧
        g.call.args.length = 3) := by
  refine ⟨?_, ?_, ?_⟩
  · intro hd
    simp [expand_metric_fn, hd]
  · intro d hd hu
    have hg : (expand_metric_fn f).describeFn = some
        { doc := "Describes the metric `" ++ f.ident ++ "`."
          cfg := f.attrs.cfg
          vis := f.vis
          name := "describe_" ++ f.ident
          params := []
          returnTy := none
          labels := none
          call := { name := describeMacroName f.fn_return_ty
                    args := [GenExpr.strLit f.ident, GenExpr.spliced d]
                    trailingComma := false } } := by
      simp [expand_metric_fn, hd, hu]
    exact ⟨_, hg, rfl, rfl, rfl⟩
  · intro d u hd hu
    have hg : (expand_metric_fn f).describeFn = some
        { doc := "Describes the metric `" ++ f.ident ++ "`."
          cfg := f.attrs.cfg
          vis := f.vis
          name := "describe_" ++ f.ident
          params := []
          returnTy := none
          labels := none
          call := { name := describeMacroName f.fn_return_ty
                    args := [GenExpr.strLit f.ident, GenExpr.spliced u, GenExpr.spliced d]
                    trailingComma := false } } := by
      simp [expand_metric_fn, hd, hu]
    exact ⟨_, hg, rfl, rfl, rfl⟩

/-- Witness for C3 at the declaration
`#[description = "metric description"] #[unit = metrics::Unit::Count]
pub fn histogram() -> Histogram;`. -/
theorem claim_C3_witness :
    (expand_metric_fn sampleDescUnitFn).describeFn.map (fun g => g.call.args) =
      some [GenExpr.strLit "histogram", GenExpr.spliced sampleUnitExpr,
        GenExpr.spliced sampleDescExpr] := by
  obtain ⟨g, hg, hname, hargs, hlen⟩ :=
    (claim_C3 sampleDescUnitFn).2.2 sampleDescExpr sampleUnitExpr rfl rfl
  rw [hg]
  exact congrArg some hargs

/-- Claim C9: a module surface with an empty body parses to a `Mod` with
zero declarations, generating code from it reproduces the same attributes,
visibility and name around an empty body, and re-parsing the emitted block
yields the same empty module. -/
theorem claim_C9 (s : ModSurface) (h : s.body = []) :
    Mod.parse s = Except.ok { attrs := s.attrs, vis := s.vis, ident := s.ident, fns := [] } ∧
    expand_from_parsed { attrs := s.attrs, vis := s.vis, ident := s.ident, fns := [] } =
      { attrs := s.attrs, vis := s.vis, ident := s.ident, items := [] } ∧
    (expand_from_parsed { attrs := s.attrs, vis := s.vis, ident := s.ident, fns := [] }).reparseSurface.map
        Mod.parse =
      some (Except.ok { attrs := s.attrs, vis := s.vis, ident := s.ident, fns := [] }) := by
  refine ⟨?_, ?_, ?_⟩
  · simp only [Mod.parse, h]
    rfl
  · simp [expand_from_parsed]
  · rfl

/-- Witness for C9 at the empty module `#[metrics] pub mod empty {}`. -/
theorem claim_C9_witness :
    sampleEmptyModSurface.body = [] ∧
    (Mod.parse sampleEmptyModSurface = Except.ok
      { attrs := sampleEmptyModSurface.attrs, vis := sampleEmptyModSurface.vis,
        ident := sampleEmptyModSurface.ident, fns := [] } ∧
    expand_from_parsed
        { attrs := sampleEmptyModSurface.attrs, vis := sampleEmptyModSurface.vis,
          ident := sampleEmptyModSurface.ident, fns := [] } =
      { attrs := sampleEmptyModSurface.attrs, vis := sampleEmptyModSurface.vis,
        ident := sampleEmptyModSurface.ident, items := [] } ∧
    (expand_from_parsed
        { attrs := sampleEmptyModSurface.attrs, vis := sampleEmptyModSurface.vis,
          ident := sampleEmptyModSurface.ident, fns := [] }).reparseSurface.map Mod.parse =
      some (Except.ok
        { attrs := sampleEmptyModSurface.attrs, vis := sampleEmptyModSurface.vis,
          ident := sampleEmptyModSurface.ident, fns := [] })) :=
  ⟨rfl, claim_C9 sampleEmptyModSurface rfl⟩


/-- Claim C6: parsing a declaration's return kind succeeds exactly on the
three bare identifiers `Counter`, `Gauge`, `Histogram`; every other
identifier, every qualified path (even with an allowed terminal segment),
and every non-path spelling fails with the fixed kind error. -/
theorem claim_C6 (ty : RsType) :
    (FnReturnTy.parse ty = Except.ok FnReturnTy.Counter ↔ ty = bareKindTy "Counter") ∧
    (FnReturnTy.parse ty = Except.ok FnReturnTy.Gauge ↔ ty = bareKindTy "Gauge") ∧
    (FnReturnTy.parse ty = Except.ok FnReturnTy.Histogram ↔ ty = bareKindTy "Histogram") ∧
    (ty ≠ bareKindTy "Counter" → ty ≠ bareKindTy "Gauge" → ty ≠ bareKindTy "Histogram" →
      FnReturnTy.parse ty = Except.error METRIC_KIND_ERROR) := by
  cases ty with
  | other t =>
    refine ⟨?_, ?_, ?_, ?_⟩ <;> simp [FnReturnTy.parse, bareKindTy]
  | path p =>
    obtain ⟨lc, segs⟩ := p
    cases lc with
    | true =>
      refine ⟨?_, ?_, ?_, ?_⟩ <;>
        simp [FnReturnTy.parse, Path.require_ident, bareKindTy]
    | false =>
      rcases segs with _ | ⟨⟨id, ha⟩, rest⟩
      · refine ⟨?_, ?_, ?_, ?_⟩ <;>
          simp [FnReturnTy.parse, Path.require_ident, bareKindTy]
      · rcases rest with _ | ⟨s₂, rest₂⟩
        · cases ha with
          | true =>
            refine ⟨?_, ?_, ?_, ?_⟩ <;>
              simp [FnReturnTy.parse, Path.require_ident, bareKindTy]
          | false =>
            by_cases h1 : id = "Counter"
            · subst h1
              refine ⟨?_, ?_, ?_, ?_⟩ <;>
                simp [FnReturnTy.parse, Path.require_ident, bareKindTy]
            · by_cases h2 : id = "Gauge"
              · subst h2
                refine ⟨?_, ?_, ?_, ?_⟩ <;>
                  simp [FnReturnTy.parse, Path.require_ident, bareKindTy]
              · by_cases h3 : id = "Histogram"
                · subst h3
                  refine ⟨?_, ?_, ?_, ?_⟩ <;>
                    simp [FnReturnTy.parse, Path.require_ident, bareKindTy]
                · refine ⟨?_, ?_, ?_, ?_⟩ <;>
                    simp [FnReturnTy.parse, Path.require_ident, bareKindTy, h1, h2, h3]
        · refine ⟨?_, ?_, ?_, ?_⟩ <;>
            simp [FnReturnTy.parse, Path.require_ident, bareKindTy]

/-- Witness for C6 at the qualified spelling `metrics::Counter`. -/
theorem claim_C6_witness :
    FnReturnTy.parse sampleQualifiedTy = Except.error METRIC_KIND_ERROR :=
  (claim_C6 sampleQualifiedTy).2.2.2 (by decide) (by decide) (by decide)


/-- Claim C5: the "unit requires description" check runs only after the
full attribute scan, against the final accumulated state: a name-value
`unit` attribute followed by a name-value `description` attribute
validates successfully with both slots set, while a `unit` attribute with
no `description` fails with the missing-description error. -/
theorem claim_C5 :
    (∀ (au ad : Attribute) (uv dv : Expr),
      au.path = ["unit"] → au.meta = Meta.nameValue uv →
      ad.path = ["description"] → ad.meta = Meta.nameValue dv →
      parse_attrs [au, ad] =
        Except.ok { cfg := [], doc := "", description := some dv, unit := some uv }) ∧
    (∀ (au : Attribute) (uv : Expr),
      au.path = ["unit"] → au.meta = Meta.nameValue uv →
      parse_attrs [au] = Except.error UNIT_WITHOUT_DESCRIPTION_ERROR) := by
  constructor
  · intro au ad uv dv hpu hmu hpd hmd
    have h1 := parse_attrs_step_unit_set initState au uv hpu hmu rfl
    have h2 := parse_attrs_step_description_set
      { initState with unit_attr := some au, unit := some uv } ad dv hpd hmd rfl
    have hscan : scan_attrs initState [au, ad] = Except.ok
        { cfg := [], doc := "", description := some dv, unit := some uv, unit_attr := some au } := by
      simp only [scan_attrs, h1, h2]
      rfl
    simp [parse_attrs, hscan]
  · intro au uv hpu hmu
    have h1 := parse_attrs_step_unit_set initState au uv hpu hmu rfl
    have hscan : scan_attrs initState [au] = Except.ok
        { cfg := [], doc := "", description := none, unit := some uv, unit_attr := some au } := by
      simp only [scan_attrs, h1]
      rfl
    simp [parse_attrs, hscan]

/-- Witness for C5: `#[unit = metrics::Unit::Count]` before
`#[description = "metric description"]` validates; a lone
`#[unit = metrics::Unit::Count]` fails. -/
theorem claim_C5_witness :
    parse_attrs [sampleUnitAttr, sampleDescAttr] =
      Except.ok { cfg := [], doc := "", description := some sampleDescExpr, unit := some sampleUnitExpr } ∧
    parse_attrs [sampleUnitAttr] = Except.error UNIT_WITHOUT_DESCRIPTION_ERROR :=
  ⟨claim_C5.1 sampleUnitAttr sampleDescAttr sampleUnitExpr sampleDescExpr rfl rfl rfl rfl,
   claim_C5.2 sampleUnitAttr sampleUnitExpr rfl rfl⟩

/-- Claim C7: an attribute whose path is none of `cfg`, `doc`,
`description`, `unit` makes attribute validation fail; when the scan
reaches it, the error is the fixed allow-list error `FN_ATTR_ERROR`. -/
theorem claim_C7 (pre post : List Attribute) (a : Attribute)
    (h1 : a.path ≠ ["cfg"]) (h2 : a.path ≠ ["doc"])
    (h3 : a.path ≠ ["description"]) (h4 : a.path ≠ ["unit"]) :
    (∃ e, parse_attrs (pre ++ a :: post) = Except.error e) ∧
    (∀ st, scan_attrs initState pre = Except.ok st →
      parse_attrs (pre ++ a :: post) = Except.error FN_ATTR_ERROR) := by
  have hstep : ∀ st : AttrState, parse_attrs_step st a = Except.error FN_ATTR_ERROR :=
    fun st => parse_attrs_step_unrecognized st a h1 h2 h3 h4
  have hmain : ∀ st, scan_attrs initState pre = Except.ok st →
      parse_attrs (pre ++ a :: post) = Except.error FN_ATTR_ERROR := by
    intro st hpre
    have hfull : scan_attrs initState (pre ++ a :: post) = Except.error FN_ATTR_ERROR := by
      simp only [scan_attrs_append pre (a :: post) initState, hpre, scan_attrs, hstep st]
    simp [parse_attrs, hfull]
  constructor
  · cases hscan : scan_attrs initState pre with
    | error e =>
      refine ⟨e, ?_⟩
      have hfull : scan_attrs initState (pre ++ a :: post) = Except.error e := by
        simp only [scan_attrs_append pre (a :: post) initState, hscan]
      simp [parse_attrs, hfull]
    | ok st => exact ⟨FN_ATTR_ERROR, hmain st hscan⟩
  · exact hmain

/-- Witness for C7 at the lone unrecognized attribute `#[serde]`. -/
theorem claim_C7_witness :
    parse_attrs ([] ++ sampleUnknownAttr :: []) = Except.error FN_ATTR_ERROR :=
  (claim_C7 [] [] sampleUnknownAttr (by decide) (by decide) (by decide) (by decide)).2
    initState rfl


/-- Claim C10: a `description` or `unit` attribute that is not in
name-value form is silently ignored by `parse_attrs`: the slot stays
unset and the state is otherwise unchanged, a later well-formed occurrence
of the same attribute is then accepted, and a malformed `unit` alone does
not trigger the missing-description check. -/
theorem claim_C10 :
    (∀ (st : AttrState) (a : Attribute), a.path = ["description"] → st.description = none →
      (∀ v, a.meta ≠ Meta.nameValue v) →
      parse_attrs_step st a = Except.ok st) ∧
    (∀ (st : AttrState) (a : Attribute), a.path = ["unit"] → st.unit = none →
      (∀ v, a.meta ≠ Meta.nameValue v) →
      parse_attrs_step st a = Except.ok { st with unit_attr := some a }) ∧
    (∀ a : Attribute, a.path = ["unit"] → (∀ v, a.meta ≠ Meta.nameValue v) →
      parse_attrs [a] = Except.ok { cfg := [], doc := "", description := none, unit := none }) ∧
    (∀ (a b : Attribute) (v : Expr), a.path = ["description"] → (∀ w, a.meta ≠ Meta.nameValue w) →
      b.path = ["description"] → b.meta = Meta.nameValue v →
      parse_attrs [a, b] = Except.ok { cfg := [], doc := "", description := some v, unit := none }) ∧
    (∀ (a b c : Attribute) (uv dv : Expr), a.path = ["unit"] → (∀ w, a.meta ≠ Meta.nameValue w) →
      b.path = ["unit"] → b.meta = Meta.nameValue uv →
      c.path = ["description"] → c.meta = Meta.nameValue dv →
      parse_attrs [a, b, c] =
        Except.ok { cfg := [], doc := "", description := some dv, unit := some uv }) := by
  have hro : ∀ a : Attribute, (∀ v, a.meta ≠ Meta.nameValue v) →
      (read_attr_expr a).toOption = none := by
    intro a hm
    cases hma : a.meta with
    | nameValue v => exact absurd hma (hm v)
    | path => simp [read_attr_expr, hma, Except.toOption]
    | list t => simp [read_attr_expr, hma, Except.toOption]
  have hstepDesc : ∀ (st : AttrState) (a : Attribute), a.path = ["description"] →
      st.description = none → (∀ v, a.meta ≠ Meta.nameValue v) →
      parse_attrs_step st a = Except.ok st := by
    intro st a hp hd hm
    obtain ⟨scfg, sdoc, sde, sun, sua⟩ := st
    simp only at hd
    subst hd
    unfold parse_attrs_step
    rw [hp]
    simp [hro a hm]
  have hstepUnit : ∀ (st : AttrState) (a : Attribute), a.path = ["unit"] →
      st.unit = none → (∀ v, a.meta ≠ Meta.nameValue v) →
      parse_attrs_step st a = Except.ok { st with unit_attr := some a } := by
    intro st a hp hu hm
    obtain ⟨scfg, sdoc, sde, sun, sua⟩ := st
    simp only at hu
    subst hu
    unfold parse_attrs_step
    rw [hp]
    simp [hro a hm]
  refine ⟨hstepDesc, hstepUnit, ?_, ?_, ?_⟩
  · intro a hp hm
    have h1 : parse_attrs_step initState a = Except.ok ⟨[], "", none, none, some a⟩ :=
      hstepUnit initState a hp rfl hm
    have hscan : scan_attrs initState [a] = Except.ok ⟨[], "", none, none, some a⟩ := by
      simp only [scan_attrs, h1]
    simp [parse_attrs, hscan]
  · intro a b v hp hm hpb hmb
    have h1 : parse_attrs_step initState a = Except.ok initState :=
      hstepDesc initState a hp rfl hm
    have h2 : parse_attrs_step initState b = Except.ok ⟨[], "", some v, none, none⟩ :=
      parse_attrs_step_description_set initState b v hpb hmb rfl
    have hscan : scan_attrs initState [a, b] = Except.ok ⟨[], "", some v, none, none⟩ := by
      simp only [scan_attrs, h1, h2]
    simp [parse_attrs, hscan]
  · intro a b c uv dv hp hm hpb hmb hpc hmc
    have h1 : parse_attrs_step initState a = Except.ok ⟨[], "", none, none, some a⟩ :=
      hstepUnit initState a hp rfl hm
    have h2 : parse_attrs_step ⟨[], "", none, none, some a⟩ b =
        Except.ok ⟨[], "", none, some uv, some b⟩ :=
      parse_attrs_step_unit_set ⟨[], "", none, none, some a⟩ b uv hpb hmb rfl
    have h3 : parse_attrs_step ⟨[], "", none, some uv, some b⟩ c =
        Except.ok ⟨[], "", some dv, some uv, some b⟩ :=
      parse_attrs_step_description_set ⟨[], "", none, some uv, some b⟩ c dv hpc hmc rfl
    have hscan : scan_attrs initState [a, b, c] = Except.ok ⟨[], "", some dv, some uv, some b⟩ := by
      simp only [scan_attrs, h1, h2, h3]
    simp [parse_attrs, hscan]

/-- Witness for C10: a malformed `#[unit(Seconds)]` is ignored, a later
well-formed `#[unit = ...]` with a `#[description = ...]` then validates. -/
theorem claim_C10_witness :
    parse_attrs [malformedUnitAttr, sampleUnitAttr, sampleDescAttr] =
      Except.ok { cfg := [], doc := "", description := some sampleDescExpr, unit := some sampleUnitExpr } :=
  claim_C10.2.2.2.2 malformedUnitAttr sampleUnitAttr sampleDescAttr sampleUnitExpr sampleDescExpr
    rfl (by intro v h; simp [malformedUnitAttr] at h) rfl rfl rfl rfl


/-- Claim C4: scanning left-to-right, the first well-formed occurrence of
`description` (resp. `unit`) is accepted into the state, and a second
occurrence of the same attribute fails immediately with the duplicate
error, regardless of anything after it (fail-fast, not last-wins). -/
theorem claim_C4 :
    (∀ (pre mid post : List Attribute) (a b : Attribute) (v : Expr) (st : AttrState),
      a.path = ["description"] → a.meta = Meta.nameValue v → b.path = ["description"] →
      scan_attrs initState pre = Except.ok st → st.description = none →
      ∀ stm, scan_attrs initState (pre ++ [a] ++ mid) = Except.ok stm →
        (∃ st₁, scan_attrs initState (pre ++ [a]) = Except.ok st₁ ∧
          st₁.description = some v) ∧
        parse_attrs (pre ++ [a] ++ mid ++ [b] ++ post) =
          Except.error DUP_DESCRIPTION_ERROR) ∧
    (∀ (pre mid post : List Attribute) (a b : Attribute) (v : Expr) (st : AttrState),
      a.path = ["unit"] → a.meta = Meta.nameValue v → b.path = ["unit"] →
      scan_attrs initState pre = Except.ok st → st.unit = none →
      ∀ stm, scan_attrs initState (pre ++ [a] ++ mid) = Except.ok stm →
        (∃ st₁, scan_attrs initState (pre ++ [a]) = Except.ok st₁ ∧
          st₁.unit = some v) ∧
        parse_attrs (pre ++ [a] ++ mid ++ [b] ++ post) =
          Except.error DUP_UNIT_ERROR) := by
  constructor
  · intro pre mid post a b v st hpa hma hpb hpre hdnone stm hmid
    have hstepa := parse_attrs_step_description_set st a v hpa hma hdnone
    have hpa1 : scan_attrs initState (pre ++ [a]) =
        Except.ok { st with description := some v } := by
      simp only [scan_attrs_append pre [a] initState, hpre, scan_attrs, hstepa]
    have hmid' : scan_attrs { st with description := some v } mid = Except.ok stm := by
      have h := hmid
      rw [scan_attrs_append (pre ++ [a]) mid initState, hpa1] at h
      exact h
    have hsome : stm.description.isSome = true :=
      scan_attrs_description_isSome mid { st with description := some v } stm hmid' rfl
    have hstepb := parse_attrs_step_description_dup stm b hpb hsome
    have hfull : scan_attrs initState (pre ++ [a] ++ mid ++ [b] ++ post) =
        Except.error DUP_DESCRIPTION_ERROR := by
      rw [List.append_assoc (pre ++ [a] ++ mid) [b] post,
        scan_attrs_append (pre ++ [a] ++ mid) ([b] ++ post) initState, hmid]
      simp only [List.singleton_append, scan_attrs, hstepb]
    refine ⟨⟨{ st with description := some v }, hpa1, rfl⟩, ?_⟩
    unfold parse_attrs
    rw [hfull]
  · intro pre mid post a b v st hpa hma hpb hpre hunone stm hmid
    have hstepa := parse_attrs_step_unit_set st a v hpa hma hunone
    have hpa1 : scan_attrs initState (pre ++ [a]) =
        Except.ok { st with unit_attr := some a, unit := some v } := by
      simp only [scan_attrs_append pre [a] initState, hpre, scan_attrs, hstepa]
    have hmid' : scan_attrs { st with unit_attr := some a, unit := some v } mid =
        Except.ok stm := by
      have h := hmid
      rw [scan_attrs_append (pre ++ [a]) mid initState, hpa1] at h
      exact h
    have hsome : stm.unit.isSome = true :=
      scan_attrs_unit_isSome mid { st with unit_attr := some a, unit := some v } stm hmid' rfl
    have hstepb := parse_attrs_step_unit_dup stm b hpb hsome
    have hfull : scan_attrs initState (pre ++ [a] ++ mid ++ [b] ++ post) =
        Except.error DUP_UNIT_ERROR := by
      rw [List.append_assoc (pre ++ [a] ++ mid) [b] post,
        scan_attrs_append (pre ++ [a] ++ mid) ([b] ++ post) initState, hmid]
      simp only [List.singleton_append, scan_attrs, hstepb]
    refine ⟨⟨{ st with unit_attr := some a, unit := some v }, hpa1, rfl⟩, ?_⟩
    unfold parse_attrs
    rw [hfull]

/-- Witness for C4 at two `#[description = "metric description"]`
attributes on one declaration. -/
theorem claim_C4_witness :
    parse_attrs ([] ++ [sampleDescAttr] ++ [] ++ [sampleDescAttr] ++ []) =
      Except.error DUP_DESCRIPTION_ERROR :=
  (claim_C4.1 [] [] [] sampleDescAttr sampleDescAttr sampleDescExpr initState rfl rfl rfl rfl rfl
    ⟨[], "", some sampleDescExpr, none, none⟩ rfl).2

/-- Claim C8: the validated documentation text is the concatenation, in
source order and with no separators added, of the string values of the
declaration's doc-comment fragments (each fragment verbatim, leading
whitespace preserved). -/
theorem claim_C8 (attrs : List Attribute) (fa : FnAttrs)
    (h : parse_attrs attrs = Except.ok fa) :
    fa.doc = concatAll (docFragmentStrings attrs) := by
  unfold parse_attrs at h
  split at h
  · cases h
  · rename_i st hscan
    have hdoc := scan_attrs_doc attrs initState st hscan
    split_ifs at h
    cases h
    rw [show ({ cfg := st.cfg, doc := st.doc, description := st.description, unit := st.unit } : FnAttrs).doc = st.doc from rfl, hdoc]
    exact String.empty_append _

/-- Witness for C8 at the two doc fragments `/// Rust docs` and
`/// More docs`. -/
theorem claim_C8_witness :
    parse_attrs [sampleDocAttr1, sampleDocAttr2] =
      Except.ok { cfg := [], doc := " Rust docs More docs", description := none, unit := none } ∧
    ({ cfg := [], doc := " Rust docs More docs", description := none, unit := none } : FnAttrs).doc =
      concatAll (docFragmentStrings [sampleDocAttr1, sampleDocAttr2]) :=
  ⟨rfl, claim_C8 [sampleDocAttr1, sampleDocAttr2] _ rfl⟩

end NecessaryMetrics
